import Mathlib

/-!
Verification development for the `aind-ng-link` repository
(`src/ng_link/ng_layer.py` and `src/ng_link/ng_state.py`).

The Python code is shallowly embedded: dictionaries with a fixed, known
key set become structures of `Option` fields (a key that may be absent is
`none`), Python exceptions become `Except PyError`, Python `int` becomes
`Int`, and numeric values become rationals `ℚ`.  The source stores the
translation matrix as `numpy.float16`; that storage is modelled exactly
by `float16`, which rounds a rational to the binary16 grid
(round-to-nearest-even, 11-bit significand, gradual underflow), so that
e.g. `0.1` is stored as `819/8192 = 0.0999755859375`.
-/

set_option maxRecDepth 4096

/-- Python exception kinds raised (or raisable) by the embedded code. -/
inductive PyError
  | typeError
  | attributeError
  | keyError
  | indexError
  | valueError
  | notImplementedError
  | dimensionalityError
  | undefinedUnit
deriving Repr, DecidableEq

/-! ### Kernel-reducible string primitives

The built-in `String.splitOn`, `String.startsWith`, `String.endsWith`
and `String.replace` do not reduce inside the kernel, so the handful of
Python string operations the source uses are modelled structurally on
the character list of the string.
-/

/-- Model of Python `str.startswith`. -/
def strStarts (s pre : String) : Bool :=
  pre.toList.isPrefixOf s.toList

/-- Model of Python `str.endswith`. -/
def strEnds (s suf : String) : Bool :=
  suf.toList.reverse.isPrefixOf s.toList.reverse

/-- Split a character list at every occurrence of the separator
(model of Python `str.split` with a one-character separator). -/
def splitOnChar (c : Char) : List Char → List (List Char)
  | [] => [[]]
  | a :: rest =>
    let r := splitOnChar c rest
    if a = c then [] :: r
    else
      match r with
      | [] => [[a]]
      | h :: t => (a :: h) :: t

/-- Fuel-driven worker for `pyStrReplace`; the fuel starts at the length
of the scanned list, which bounds the number of scanning steps. -/
def replaceFuel (pat repl : List Char) : Nat → List Char → List Char
  | _, [] => []
  | 0, l => l
  | fuel + 1, a :: rest =>
    if pat.isPrefixOf (a :: rest) then
      repl ++ replaceFuel pat repl fuel ((a :: rest).drop pat.length)
    else a :: replaceFuel pat repl fuel rest

/-- Model of Python `str.replace` (every non-overlapping occurrence,
scanning left to right, nonempty pattern). -/
def pyStrReplace (s pat repl : String) : String :=
  if pat = "" then s
  else String.mk (replaceFuel pat.toList repl.toList s.toList.length s.toList)

/-! ### Python `pathlib` string behaviour

`pathlib.PurePosixPath` normalizes a path string by dropping empty and
single-dot components (a leading run of exactly two slashes is kept).
The source interpolates `Path` objects into f-strings and reads `.stem`,
so we model `str(Path(s))`, `Path(s).name` and `Path(s).stem`.
-/

/-- Nonempty, non-dot components of a path string. -/
def pathComps (s : String) : List String :=
  ((splitOnChar '/' s.toList).map String.mk).filter
    (fun c => !(c == "") && !(c == "."))

/-- Join path components with single separators. -/
def joinComps : List String → String
  | [] => ""
  | [a] => a
  | a :: rest => a ++ "/" ++ joinComps rest

/-- Model of `str(pathlib.PurePosixPath(s))`: collapse duplicate
separators and drop `.` components, keeping a leading `/` (or a leading
run of exactly two slashes, which POSIX treats specially). -/
def posixPathNorm (s : String) : String :=
  let body := joinComps (pathComps s)
  if strStarts s "/" then
    if strStarts s "//" && !(strStarts s "///") then "//" ++ body
    else "/" ++ body
  else if body = "" then "." else body

/-- Model of `pathlib.PurePosixPath(s).name`: the last nonempty,
non-dot component of the path, or the empty string. -/
def pyPathName (s : String) : String :=
  ((pathComps s).getLast?).getD ""

/-- Index of the last occurrence of a character in a list, if any
(model of Python `str.rfind`). -/
def lastIdxOf (c : Char) : List Char → Option Nat
  | [] => none
  | a :: rest =>
    match lastIdxOf c rest with
    | some i => some (i + 1)
    | none => if a = c then some 0 else none

/-- Model of `pathlib.PurePosixPath(s).stem`: the final component with
its last dot-suffix removed; a dot in first or last position does not
count as a suffix separator (as in CPython `pathlib`). -/
def pyStem (s : String) : String :=
  let n := pyPathName s
  let cs := n.toList
  match lastIdxOf '.' cs with
  | some i => if 0 < i ∧ i + 1 < cs.length then String.mk (cs.take i) else n
  | none => n

/-- Model of `str(pathlib.PurePosixPath(a).joinpath(b))` for the shapes
arising here: an absolute `b` replaces `a`; joining onto the empty or
current-directory path yields `b`; otherwise the parts are joined with
one separator. -/
def pyJoin (a b : String) : String :=
  if strStarts b "/" then b
  else if a = "" ∨ a = "." then b
  else a ++ "/" ++ b

/-! ### `numpy.float16` value storage

`helper_create_ng_translation_matrix` allocates its matrix as
`numpy.float16`, so every delta is quantized on assignment.  IEEE
binary16 is modelled exactly over `ℚ`: round-to-nearest-even to an
11-bit significand for normal values (`2^-14 <= |x| < 2^16`), gradual
underflow on the `2^-24` grid below that, and the result clamped to the
largest finite value `±65504` beyond the finite range (`numpy` produces
an IEEE infinity there, which has no rational counterpart; no value in
this repository approaches that range).  Only structural, kernel-
reducible `Nat`/`Int` arithmetic and `mkRat` are used.
-/

/-- Round-to-nearest of the nonnegative integer fraction `n / d`
(`d` positive), with ties going to the even integer — the IEEE rounding
mode. -/
def roundHalfEven (n d : Nat) : Nat :=
  let t := n / d
  let r := n % d
  if 2 * r < d then t
  else if d < 2 * r then t + 1
  else if t % 2 = 0 then t else t + 1

/-- Fuel-driven base-2 logarithm worker (structural, so it reduces in
the kernel, unlike `Nat.log2`). -/
def log2Fuel : Nat → Nat → Nat
  | 0, _ => 0
  | fuel + 1, n => if 2 ≤ n then log2Fuel fuel (n / 2) + 1 else 0

/-- `natLog2 n` is the floor of the base-2 logarithm of `n` (zero for
`n = 0`); the fuel `n` dominates the recursion depth. -/
def natLog2 (n : Nat) : Nat := log2Fuel n n

/-- Quantization of the nonnegative rational `n / d` to the IEEE
binary16 value grid.  `t` fixes the binade: `natLog2 t - 30` is the
floor of the base-2 logarithm of `n / d` (values below `2^-30` round to
zero, far below the smallest subnormal midpoint `2^-25`).  The scale
exponent `k` selects the grid step `2^-k`: `10 - e` inside the normal
range, `24` in the subnormal range; the scaled value is rounded half to
even and results beyond `65504` are clamped to `65504`. -/
def float16Pos (n d : Nat) : ℚ :=
  let t := n * 2 ^ 30 / d
  if t = 0 then 0
  else
    let e : Int := (natLog2 t : Int) - 30
    let k : Int := if e < -14 then 24 else 10 - e
    if 0 ≤ k then
      let m := roundHalfEven (n * 2 ^ k.toNat) d
      if 65504 * 2 ^ k.toNat < m then mkRat 65504 1 else mkRat m (2 ^ k.toNat)
    else
      let m := roundHalfEven n (d * 2 ^ (-k).toNat)
      if 65504 < m * 2 ^ (-k).toNat then mkRat 65504 1
      else mkRat (m * 2 ^ (-k).toNat) 1

/-- Model of storing a rational value into a `numpy.float16` cell:
quantize the magnitude and restore the sign. -/
def float16 (q : ℚ) : ℚ :=
  if q.num < 0 then -(float16Pos q.num.natAbs q.den) else float16Pos q.num.natAbs q.den

/-! ### `ng_layer.py`: translation matrix helper -/

/-- Write value `v` at row `i`, column `j` of a list-of-lists matrix
(out-of-range indices leave the matrix unchanged; every use below is in
range). -/
def setMatrixEntry (m : List (List ℚ)) (i j : Nat) (v : ℚ) : List (List ℚ) :=
  m.set i ((m.getD i []).set j v)

/-- Model of `numpy.fill_diagonal(m, 1)` on a rectangular matrix: set
entry `(i, i)` to `1` for every row index `i` that is also a valid
column index. -/
def fillDiagonal (m : List (List ℚ)) : List (List ℚ) :=
  m.mapIdx (fun i row => row.set i 1)

/-- Embedding of `helper_create_ng_translation_matrix` from
`ng_layer.py`: build an `n_rows × n_cols` zero matrix of
`numpy.float16` cells, put `1` on the diagonal, require
`n_rows - 1 >= 3` (`ValueError` otherwise, before any write), then
write `delta_x, delta_y, delta_z` — each quantized by the `float16`
storage — into the last column at rows `n_rows-1, n_rows-2, n_rows-3`
(`0` and `1` are exactly representable, so the zero fill and the
diagonal need no quantization).  A zero-column matrix would make the
negative index `[-1]` fail in Python (`IndexError`). -/
def helper_create_ng_translation_matrix
    (delta_x delta_y delta_z : ℚ) (n_cols n_rows : Nat) :
    Except PyError (List (List ℚ)) :=
  let m := fillDiagonal (List.replicate n_rows (List.replicate n_cols 0))
  let start : Int := (n_rows : Int) - 1
  if start < 3 then Except.error PyError.valueError
  else if n_cols = 0 then Except.error PyError.indexError
  else
    let m := setMatrixEntry m start.toNat (n_cols - 1) (float16 delta_x)
    let m := setMatrixEntry m (start - 1).toNat (n_cols - 1) (float16 delta_y)
    let m := setMatrixEntry m (start - 2).toNat (n_cols - 1) (float16 delta_z)
    Except.ok m

/-- Embedding of `helper_reverse_dictionary` from `ng_layer.py`: the
dictionary (association list with distinct keys) is rebuilt iterating
its keys from last to first. -/
def helper_reverse_dictionary {α β : Type} (d : List (α × β)) : List (α × β) :=
  d.reverse

/-! ### `ng_layer.py`: source resolution -/

/-- Scheme-prefixing step of `NgLayer.__set_s3_path`: a source that does
not already start with `{mount_service}://` is wrapped into
`{mount_service}://{bucket_path}/{path}` after `Path` normalization. -/
def s3SchemeStep (mount_service bucket_path orig_source_path : String) : String :=
  if strStarts orig_source_path (mount_service ++ "://") then orig_source_path
  else mount_service ++ "://" ++ bucket_path ++ "/" ++ posixPathNorm orig_source_path

/-- Embedding of `NgLayer.__set_s3_path`: after the scheme step, a path
ending in `.zarr` receives the `zarr://` format tag; any other ending
raises `NotImplementedError`. -/
def setS3Path (mount_service bucket_path orig_source_path : String) :
    Except PyError String :=
  let s3_path := s3SchemeStep mount_service bucket_path orig_source_path
  if strEnds s3_path ".zarr" then Except.ok ("zarr://" ++ s3_path)
  else Except.error PyError.notImplementedError

/-! ### `ng_layer.py`: layer configuration data model

An image-layer description dictionary has a fixed set of optional keys
(`type`, `source`, `channel`, `name`, `shader`, `shaderControls`,
`visible`, `opacity`, `blend`, plus `annotations` and `limits` used by
annotation descriptions in `ng_state.py`); it is modelled as a
structure of `Option` fields.
-/

/-- Shared output dimensions: ordered association list from axis name to
the converted `[magnitude, unit]` pair. -/
abbrev Dims := List (String × (ℚ × String))

/-- The `shader` sub-dictionary `{color, emitter, vec}`. -/
structure ShaderCfg where
  color : String
  emitter : String
  vec : String
deriving Repr, DecidableEq

/-- The `shaderControls` sub-dictionary
`\x7b"normalized": \x7b"range": [lo, hi]\x7d\x7d`, modelled by its two
range endpoints. -/
structure ShaderControlCfg where
  lo : ℚ
  hi : ℚ
deriving Repr, DecidableEq

/-- A translation descriptor dictionary `{delta_x, delta_y, delta_z}` or
an explicit matrix given as a list of rows. -/
inductive TransformSpec
  | deltas (delta_x delta_y delta_z : ℚ)
  | matrix (m : List (List ℚ))
deriving Repr, DecidableEq

/-- One entry of a multi-tile source list: a `url` key and an optional
`transform_matrix` key (the only keys the examples and the resolution
code inspect; any other key would be copied through unchanged). -/
structure RawTile where
  url : Option String
  transform_matrix : Option TransformSpec
deriving Repr, DecidableEq

/-- The `source` value of a layer description: a single path or a list
of tile dictionaries. -/
inductive RawSource
  | path (p : String)
  | tiles (ts : List RawTile)
deriving Repr, DecidableEq

/-- A resolved tile after `NgLayer.__set_sources_paths`: the resolved
`url` and, when a transform was supplied, the matrix together with the
attached (reversed) output dimensions. -/
structure FixedTile where
  url : Option String
  transform : Option (List (List ℚ) × Dims)
deriving Repr, DecidableEq

/-- A resolved source after `NgLayer.__fix_image_source`. -/
inductive FixedSource
  | path (p : String)
  | tiles (ts : List FixedTile)
deriving Repr, DecidableEq

/-- An image/annotation layer description dictionary; `none` is an
absent key. -/
structure LayerDesc where
  type : Option String
  source : Option RawSource
  channel : Option Int
  name : Option String
  shader : Option ShaderCfg
  shaderControls : Option ShaderControlCfg
  visible : Option Bool
  opacity : Option ℚ
  blend : Option String
  annotations : Option (List (List ℚ))
  limits : Option (List ℚ)
deriving Repr, DecidableEq

/-- The private `NgLayer.__layer_state` dictionary.  `localDimensions`
holds the single entry written by the `image_channel` setter: the key
(always the channel axis name) and the stored `[channel + 1, ""]`
pair. -/
structure NgLayerState where
  type : Option String
  name : Option String
  blend : Option String
  visible : Option Bool
  shader : Option String
  shaderControls : Option ShaderControlCfg
  opacity : Option ℚ
  localDimensions : Option (String × Int × String)
  source : Option FixedSource
deriving Repr, DecidableEq

/-- Embedding of `NgLayer.__create_shader`: two UI control lines
followed by the main body, with the emitter name interpolated into the
emitted function name. -/
def createShader (c : ShaderCfg) : String :=
  "#uicontrol " ++ c.vec ++ " color color(default=\"" ++ c.color ++ "\")\n"
    ++ "#uicontrol invlerp normalized\n"
    ++ "void main() \x7b\n" ++ "emit" ++ c.emitter ++ "(color * normalized());" ++ "\n\x7d"

/-- Embedding of `NgLayer.__set_sources_paths`: resolve the `url` of
every tile and expand a delta-dictionary transform through
`helper_create_ng_translation_matrix` (default 5 x 6 shape), attaching
the output dimensions; an explicit matrix is used verbatim. -/
def setSourcesPaths (mount_service bucket_path : String) (outDims : Dims) :
    List RawTile → Except PyError (List FixedTile)
  | [] => Except.ok []
  | t :: rest => do
    let url ← match t.url with
      | none => pure (none : Option String)
      | some u => do
          let r ← setS3Path mount_service bucket_path u
          pure (some r)
    let transform ← match t.transform_matrix with
      | none => pure (none : Option (List (List ℚ) × Dims))
      | some (TransformSpec.deltas dx dy dz) => do
          let m ← helper_create_ng_translation_matrix dx dy dz 6 5
          pure (some (m, outDims))
      | some (TransformSpec.matrix m) => pure (some (m, outDims))
    let tl ← setSourcesPaths mount_service bucket_path outDims rest
    Except.ok ({ url := url, transform := transform } :: tl)

/-- Embedding of `NgLayer.__fix_image_source`: dispatch on the source
shape. -/
def fixImageSource (mount_service bucket_path : String) (outDims : Dims) :
    RawSource → Except PyError FixedSource
  | RawSource.path p => (setS3Path mount_service bucket_path p).map FixedSource.path
  | RawSource.tiles ts => (setSourcesPaths mount_service bucket_path outDims ts).map FixedSource.tiles

/-- The value stored by the `image_channel` setter:
`self.__layer_state["localDimensions"] = \x7b"c\x27": [int(channel) + 1, ""]\x7d`. -/
def imageChannelEntry (channel : Int) : String × Int × String :=
  ("c\x27", channel + 1, "")

/-- Embedding of the explicit-key pass of `NgLayer.update_state`: every
key present in the image configuration is written into the layer state
(str/bool/int/float/dict coercions are identities on the typed model);
the `source` key holds the already-resolved source. -/
def ngLayerUpdateState (cfg : LayerDesc) (fixedSrc : FixedSource) : NgLayerState :=
  { type := cfg.type
    name := cfg.name
    blend := cfg.blend
    visible := cfg.visible
    shader := cfg.shader.map createShader
    shaderControls := cfg.shaderControls
    opacity := cfg.opacity
    localDimensions := cfg.channel.map imageChannelEntry
    source := some fixedSrc }

/-- Default-name derivation inside `NgLayer.set_default_values`: stem of
the single resolved source path, or of the url of the first tile
(`IndexError` on an empty tile list, `KeyError` when the first tile has
no url), suffixed with the given channel string. -/
def deriveDefaultName (fixedSrc : FixedSource) (ch : String) : Except PyError String :=
  match fixedSrc with
  | FixedSource.path p => Except.ok (pyStem p ++ "_" ++ ch)
  | FixedSource.tiles [] => Except.error PyError.indexError
  | FixedSource.tiles (t :: _) =>
    match t.url with
    | none => Except.error PyError.keyError
    | some u => Except.ok (pyStem u ++ "_" ++ ch)

/-- First three default branches of `NgLayer.set_default_values`, run in
source order before the name branch: channel default `0` (stored
incremented through the `image_channel` setter), shader-control range
default `[0, 200]`, visibility default `true`; each applies only when
the corresponding key is absent from the image configuration. -/
def ngLayerDefaultsPre (st : NgLayerState) (cfg : LayerDesc) : NgLayerState :=
  let st1 := if cfg.channel.isNone then { st with localDimensions := some (imageChannelEntry 0) } else st
  let st2 := if cfg.shaderControls.isNone then { st1 with shaderControls := some { lo := 0, hi := 200 } } else st1
  if cfg.visible.isNone then { st2 with visible := some true } else st2

/-- Embedding of `NgLayer.set_default_values` in the build flow
(`overwrite = False` and a nonempty image configuration): apply the
three value defaults; then, when `name` is absent, read the stored
channel value back out of `localDimensions` (empty string if the entry
is missing) and derive the name from the source stem; finally default
`type` to the layer image type. -/
def ngLayerSetDefaultValues (st : NgLayerState) (cfg : LayerDesc)
    (fixedSrc : FixedSource) (image_type : String) : Except PyError NgLayerState :=
  let st3 := ngLayerDefaultsPre st cfg
  if cfg.name.isNone then
    let ch : String :=
      match st3.localDimensions with
      | some (_, c, _) => toString c
      | none => ""
    match deriveDefaultName fixedSrc ch with
    | Except.error e => Except.error e
    | Except.ok nm =>
      let st4 := { st3 with name := some nm }
      Except.ok (if cfg.type.isNone then { st4 with type := some image_type } else st4)
  else
    Except.ok (if cfg.type.isNone then { st3 with type := some image_type } else st3)

/-- Embedding of the `NgLayer` constructor on an image configuration:
reverse the output dimensions (`helper_reverse_dictionary`), resolve the
source (`KeyError` when the `source` key is absent), and run
`update_state`, which sets the explicit keys and then applies
`set_default_values`. -/
def ngLayerBuild (image_config : LayerDesc) (mount_service bucket_path image_type : String)
    (output_dimensions : Dims) : Except PyError NgLayerState :=
  match image_config.source with
  | none => Except.error PyError.keyError
  | some raw =>
    match fixImageSource mount_service bucket_path
        (helper_reverse_dictionary output_dimensions) raw with
    | Except.error e => Except.error e
    | Except.ok fixedSrc =>
      ngLayerSetDefaultValues (ngLayerUpdateState image_config fixedSrc)
        image_config fixedSrc image_type

/-! ### `ng_state.py`: dimension conversion

`NgState.__unpack_axis` delegates the physical conversion to the `pint`
unit library.  `pint` is an external dependency, not repository code; it
is modelled by a registry of the standard SI metric units with their
exact scaling factors to the base units (meters and seconds), and a
conversion that fails with a dimensionality error when the source and
destination dimensions differ (as `pint` does).
-/

/-- Physical dimensionality of a registered unit. -/
inductive PintDim
  | length
  | time
  | dimensionless
deriving Repr, DecidableEq

/-- A registered unit: its dimensionality and its exact scaling factor
to the corresponding SI base unit. -/
structure PintUnit where
  dim : PintDim
  toBase : ℚ
deriving Repr, DecidableEq

/-- Model of the `pint` unit registry for the standard SI metric units. -/
def unitRegistry : String → Option PintUnit
  | "meter" => some { dim := PintDim.length, toBase := 1 }
  | "meters" => some { dim := PintDim.length, toBase := 1 }
  | "m" => some { dim := PintDim.length, toBase := 1 }
  | "centimeter" => some { dim := PintDim.length, toBase := 1 / 100 }
  | "centimeters" => some { dim := PintDim.length, toBase := 1 / 100 }
  | "millimeter" => some { dim := PintDim.length, toBase := 1 / 1000 }
  | "millimeters" => some { dim := PintDim.length, toBase := 1 / 1000 }
  | "micrometer" => some { dim := PintDim.length, toBase := 1 / 1000000 }
  | "micrometers" => some { dim := PintDim.length, toBase := 1 / 1000000 }
  | "micron" => some { dim := PintDim.length, toBase := 1 / 1000000 }
  | "microns" => some { dim := PintDim.length, toBase := 1 / 1000000 }
  | "nanometer" => some { dim := PintDim.length, toBase := 1 / 1000000000 }
  | "nanometers" => some { dim := PintDim.length, toBase := 1 / 1000000000 }
  | "second" => some { dim := PintDim.time, toBase := 1 }
  | "seconds" => some { dim := PintDim.time, toBase := 1 }
  | "s" => some { dim := PintDim.time, toBase := 1 }
  | "millisecond" => some { dim := PintDim.time, toBase := 1 / 1000 }
  | "milliseconds" => some { dim := PintDim.time, toBase := 1 / 1000 }
  | "" => some { dim := PintDim.dimensionless, toBase := 1 }
  | _ => none

/-- An axis entry of the input `dimensions` mapping:
`{"voxel_size": v, "unit": u}`. -/
structure AxisSpec where
  voxel_size : ℚ
  unit : String
deriving Repr, DecidableEq

/-- Embedding of `NgState.__unpack_axis`: destinations other than
meters/seconds raise `NotImplementedError`; otherwise the voxel size is
converted through the unit registry and paired with the neuroglancer
metric literal (`"m"` or `"s"`). -/
def unpackAxis (axis_values : AxisSpec) (dest_metric : String) :
    Except PyError (ℚ × String) :=
  if dest_metric ≠ "meters" ∧ dest_metric ≠ "seconds" then
    Except.error PyError.notImplementedError
  else
    match unitRegistry axis_values.unit with
    | none => Except.error PyError.undefinedUnit
    | some u =>
      let destDim := if dest_metric = "meters" then PintDim.length else PintDim.time
      if u.dim = destDim then
        Except.ok (axis_values.voxel_size * u.toBase,
          if dest_metric = "meters" then "m" else "s")
      else Except.error PyError.dimensionalityError

/-- The spatial-axis test of the `dimensions` setter: the regular
expression `([x-zX-Z])$` matches exactly the names whose last character
lies in `x..z` or `X..Z`. -/
def spatialAxisMatch (axis : String) : Bool :=
  match axis.toList.getLast? with
  | some ch =>
    if ('x' ≤ ch ∧ ch ≤ 'z') ∨ ('X' ≤ ch ∧ ch ≤ 'Z') then true else false
  | none => false

/-- Embedding of the `NgState.dimensions` setter: spatial axes are
converted to meters, the `t` axis to seconds, the channel axis
(`"c\x27"`) is passed through unconverted, and any other axis is
silently skipped; input order is preserved. -/
def ngStateDimensionsSetter : List (String × AxisSpec) → Except PyError Dims
  | [] => Except.ok []
  | (axis, axis_values) :: rest =>
    if spatialAxisMatch axis then do
      let v ← unpackAxis axis_values "meters"
      let tl ← ngStateDimensionsSetter rest
      Except.ok ((axis, v) :: tl)
    else if axis = "t" then do
      let v ← unpackAxis axis_values "seconds"
      let tl ← ngStateDimensionsSetter rest
      Except.ok ((axis, v) :: tl)
    else if axis = "c\x27" then do
      let tl ← ngStateDimensionsSetter rest
      Except.ok ((axis, (axis_values.voxel_size, axis_values.unit)) :: tl)
    else ngStateDimensionsSetter rest

/-! ### `ng_state.py`: layer dispatch

The `layers` setter builds a per-layer configuration dictionary and then
executes `NgLayer().create(config).layer_state`.  `NgLayer.__init__` has
three required positional parameters (`image_config`, `mount_service`,
`bucket_path`), so the zero-argument call raises `TypeError` before the
constructor body runs; were an instance ever produced, the `create`
attribute does not exist on `NgLayer`, so `AttributeError` would follow.
-/

/-- The call `NgLayer()` as written in the `layers` setter: Python
raises `TypeError` (three missing required positional arguments) before
any constructor code executes. -/
def ngLayerNoArgCall : Except PyError NgLayerState :=
  Except.error PyError.typeError

/-- Embedding of the `NgState.layers` setter body.  For each layer the
`type` key is read (`KeyError` when absent); an annotation layer also
reads its `source` and `annotations` keys while assembling the config
dictionary; then the `NgLayer()` zero-argument call raises, and the
missing `create` attribute would raise right after, so the loop dies on
its first iteration and no layer state is ever appended. -/
def ngStateLayersSetter (_dims : Dims) (_mount_service _bucket_path : String) :
    List LayerDesc → Except PyError (List NgLayerState)
  | [] => Except.ok []
  | layer :: _rest =>
    match layer.type with
    | none => Except.error PyError.keyError
    | some t =>
      if t = "annotation" ∧ (layer.source.isNone ∨ layer.annotations.isNone) then
        Except.error PyError.keyError
      else
        match ngLayerNoArgCall with
        | Except.error e => Except.error e
        | Except.ok _ => Except.error PyError.attributeError

/-! ### `ng_state.py`: output path, link and document assembly -/

/-- Embedding of `NgState.__fix_output_json_path`: strip the
`/home/jupyter/` prefix fragment and collapse quadruple separators. -/
def fixOutputJsonPath (output_json : String) : String :=
  pyStrReplace (pyStrReplace output_json "/home/jupyter/" "") "////" "//"

/-- Embedding of `NgState.get_url_link` (taking the raw constructor
`output_json`, which the constructor stores after
`__fix_output_json_path`): the dataset name is the stem of the stored
output path, joined with the json file name and wrapped into
`{base_url}#!{mount_service}://{bucket_path}/{json_path}`. -/
def ngStateGetUrlLink (output_json mount_service bucket_path base_url json_name : String) :
    String :=
  let stored := fixOutputJsonPath output_json
  let dataset_name := pyStem stored
  let json_path := pyJoin dataset_name json_name
  base_url ++ "#!" ++ (mount_service ++ "://" ++ bucket_path ++ "/" ++ json_path)

/-- The top-level input description: required `dimensions` and `layers`
keys plus the two optional display flags. -/
structure InputConfig where
  dimensions : List (String × AxisSpec)
  layers : List LayerDesc
  showAxisLines : Option Bool
  showScaleBar : Option Bool
deriving Repr, DecidableEq

/-- The assembled `NgState.__state` document. -/
structure NgStateDoc where
  ng_link : String
  dimensions : Dims
  layers : List NgLayerState
  showAxisLines : Bool
  showScaleBar : Bool
deriving Repr, DecidableEq

/-- Embedding of `NgState.initialize_attributes` (the constructor tail):
run the `dimensions` setter, run the `layers` setter, assemble the
document through the `state` getter (which hard-codes both display
flags to `true`), then apply the `show_axis_lines` / `show_scale_bar`
setters for the flags explicitly present in the input. -/
def ngStateInitialize (input_config : InputConfig)
    (mount_service bucket_path output_json base_url json_name : String) :
    Except PyError NgStateDoc := do
  let dims ← ngStateDimensionsSetter input_config.dimensions
  let layers ← ngStateLayersSetter dims mount_service bucket_path input_config.layers
  let doc : NgStateDoc :=
    { ng_link := ngStateGetUrlLink output_json mount_service bucket_path base_url json_name
      dimensions := dims
      layers := layers
      showAxisLines := true
      showScaleBar := true }
  let doc := match input_config.showAxisLines with
    | some b => { doc with showAxisLines := b }
    | none => doc
  let doc := match input_config.showScaleBar with
    | some b => { doc with showScaleBar := b }
    | none => doc
  Except.ok doc

example : setS3Path "s3" "aind-msma-data" "image_path.zarr"
    = Except.ok "zarr://s3://aind-msma-data/image_path.zarr" := by rfl

example : setS3Path "s3" "bucket" "zarr://s3://bucket/path.zarr"
    = Except.ok "zarr://s3://bucket/zarr:/s3:/bucket/path.zarr" := by rfl

example : helper_create_ng_translation_matrix 1 2 3 6 5
    = Except.ok [[1,0,0,0,0,0],[0,1,0,0,0,0],[0,0,1,0,0,3],[0,0,0,1,0,2],[0,0,0,0,1,1]] := by rfl

example : helper_create_ng_translation_matrix 1 2 3 6 3
    = Except.error PyError.valueError := by rfl

example : pyStem "zarr://s3://aind-msma-data/image_path.zarr" = "image_path" := by rfl

/-! ## Claims -/

/-- C5 counterexample: the matrix is stored as `numpy.float16`, so a
delta is not written verbatim — with `delta_x = 1/10` (the decimal
`0.1`) and the default 5 x 6 shape, the entry `M[4][5]` holds the
quantized value `819/8192 = 0.0999755859375`, not `1/10` as the claim
states for every delta. -/
theorem translation_matrix_exact_delta_counterexample :
    helper_create_ng_translation_matrix (mkRat 1 10) 2 3 6 5 =
      Except.ok [[1, 0, 0, 0, 0, 0],
                 [0, 1, 0, 0, 0, 0],
                 [0, 0, 1, 0, 0, 3],
                 [0, 0, 0, 1, 0, 2],
                 [0, 0, 0, 0, 1, mkRat 819 8192]] ∧
    mkRat 819 8192 ≠ mkRat 1 10 :=
  ⟨rfl, by decide⟩

/-- C5 amended: for every `delta_x`, `delta_y`, `delta_z` and the
default sizes `n_rows = 5`, `n_cols = 6`, the helper returns the 5 x 6
identity matrix with the FLOAT16-QUANTIZED values of the three deltas
(round-to-nearest-even to an 11-bit significand, the storage format of
the matrix) written into the last column at rows 4, 3, 2 respectively
and every other entry equal to the identity; deltas that are exactly
representable in float16 appear verbatim — in particular `(1, 2, 3)`
yield the identity except `M[4][5] = 1`, `M[3][5] = 2`,
`M[2][5] = 3`. -/
theorem translation_matrix_quantized_default_shape (delta_x delta_y delta_z : ℚ) :
    helper_create_ng_translation_matrix delta_x delta_y delta_z 6 5 =
      Except.ok [[1, 0, 0, 0, 0, 0],
                 [0, 1, 0, 0, 0, 0],
                 [0, 0, 1, 0, 0, float16 delta_z],
                 [0, 0, 0, 1, 0, float16 delta_y],
                 [0, 0, 0, 0, 1, float16 delta_x]] ∧
    float16 1 = 1 ∧ float16 2 = 2 ∧ float16 3 = 3 ∧
    helper_create_ng_translation_matrix 1 2 3 6 5 =
      Except.ok [[1, 0, 0, 0, 0, 0],
                 [0, 1, 0, 0, 0, 0],
                 [0, 0, 1, 0, 0, 3],
                 [0, 0, 0, 1, 0, 2],
                 [0, 0, 0, 0, 1, 1]] := by
  exact ⟨rfl, rfl, rfl, rfl, rfl⟩

/-- C6: `helper_create_ng_translation_matrix` (at the default
`n_cols = 6`) raises the capacity error (`ValueError` in the source, the
`InsufficientTransformCapacity` of the spec taxonomy) exactly when
`n_rows - 1` is smaller than `3`, the number of supplied deltas — in
particular at `n_rows = 3` — and returns normally for every `n_rows`
with `n_rows - 1 >= 3`. -/
theorem translation_matrix_capacity (delta_x delta_y delta_z : ℚ) (n_rows : Nat) :
    (helper_create_ng_translation_matrix delta_x delta_y delta_z 6 n_rows
        = Except.error PyError.valueError ↔ (n_rows : Int) - 1 < 3) ∧
    (3 ≤ (n_rows : Int) - 1 →
      (helper_create_ng_translation_matrix delta_x delta_y delta_z 6 n_rows).isOk = true) ∧
    helper_create_ng_translation_matrix delta_x delta_y delta_z 6 3
      = Except.error PyError.valueError := by
  refine ⟨?_, ?_, rfl⟩
  · unfold helper_create_ng_translation_matrix
    by_cases h : ((n_rows : Int) - 1) < 3
    · simp [h]
    · simp [h]
  · intro h
    unfold helper_create_ng_translation_matrix
    rw [if_neg (by omega)]
    simp [Except.isOk, Except.toBool]

/-- C6 witness: at `n_rows = 5` construction succeeds and at
`n_rows = 3` it raises the capacity error. -/
theorem translation_matrix_capacity_witness :
    (helper_create_ng_translation_matrix 1 2 3 6 5).isOk = true ∧
    helper_create_ng_translation_matrix 1 2 3 6 3 = Except.error PyError.valueError :=
  ⟨(translation_matrix_capacity 1 2 3 5).2.1 (by decide),
   (translation_matrix_capacity 1 2 3 3).2.2⟩

/-- C4 counterexample: resolving the already-resolved URL
`zarr://s3://bucket/path.zarr` does not return it unchanged — the
format-tagged URL does not start with `s3://`, so the scheme step
re-prefixes it (normalizing the internal double slashes) and the format
tag is prepended again. -/
theorem source_resolution_idempotence_counterexample :
    setS3Path "s3" "bucket" "zarr://s3://bucket/path.zarr"
      = Except.ok "zarr://s3://bucket/zarr:/s3:/bucket/path.zarr" ∧
    ("zarr://s3://bucket/zarr:/s3:/bucket/path.zarr" : String)
      ≠ "zarr://s3://bucket/path.zarr" :=
  ⟨rfl, by decide⟩

/-- C4 amended: single-path source resolution is not idempotent — only
its scheme-prefixing step is.  A URL that already starts with
`{mount_service}://` (and carries the supported extension) passes the
scheme step unchanged and only gains the `zarr://` format tag, but a
URL that already carries both prefixes starts with `zarr://` instead,
so re-resolution wraps it again. -/
theorem source_resolution_scheme_step_idempotent
    (mount_service bucket_path url : String)
    (h1 : strStarts url (mount_service ++ "://") = true)
    (h2 : strEnds url ".zarr" = true) :
    setS3Path mount_service bucket_path url = Except.ok ("zarr://" ++ url) := by
  unfold setS3Path s3SchemeStep
  simp [h1, h2]

/-- C4 amended witness: a scheme-prefixed URL passes the scheme step
unchanged and only gains the format tag. -/
theorem source_resolution_scheme_step_idempotent_witness :
    setS3Path "s3" "bucket" "s3://bucket/path.zarr"
      = Except.ok "zarr://s3://bucket/path.zarr" :=
  source_resolution_scheme_step_idempotent "s3" "bucket" "s3://bucket/path.zarr"
    (by decide) (by decide)

/-- C7: whenever the scheme-prefixed single source path does not end in
`.zarr`, `__set_s3_path` raises `NotImplementedError` (the spec
`UnsupportedFormat`), no normalized source is returned, and the whole
layer build aborts with the same error. -/
theorem source_resolution_unsupported_format
    (mount_service bucket_path orig_source_path image_type : String)
    (cfg : LayerDesc) (dims : Dims)
    (h : strEnds (s3SchemeStep mount_service bucket_path orig_source_path) ".zarr" = false) :
    setS3Path mount_service bucket_path orig_source_path
      = Except.error PyError.notImplementedError ∧
    (cfg.source = some (RawSource.path orig_source_path) →
      ngLayerBuild cfg mount_service bucket_path image_type dims
        = Except.error PyError.notImplementedError) := by
  have h1 : setS3Path mount_service bucket_path orig_source_path
      = Except.error PyError.notImplementedError := by
    unfold setS3Path
    simp [h]
  refine ⟨h1, fun hsrc => ?_⟩
  simp only [ngLayerBuild, hsrc, fixImageSource, h1, Except.map]

/-- C7 witness: a `.tiff` source aborts the layer build with
`NotImplementedError`. -/
theorem source_resolution_unsupported_format_witness :
    setS3Path "s3" "bucket" "img.tiff" = Except.error PyError.notImplementedError ∧
    ngLayerBuild
      { type := some "image", source := some (RawSource.path "img.tiff"),
        channel := none, name := none, shader := none, shaderControls := none,
        visible := none, opacity := none, blend := none, annotations := none,
        limits := none }
      "s3" "bucket" "image" [] = Except.error PyError.notImplementedError := by
  have h := source_resolution_unsupported_format "s3" "bucket" "img.tiff" "image"
    { type := some "image", source := some (RawSource.path "img.tiff"),
      channel := none, name := none, shader := none, shaderControls := none,
      visible := none, opacity := none, blend := none, annotations := none,
      limits := none }
    [] (by decide)
  exact ⟨h.1, h.2 rfl⟩

/-- C9 counterexample: for an output directory whose final segment
carries a dot (`/data/out.v1`), `get_url_link` uses the stem `out`, not
the full final path segment `out.v1`, so the produced link differs from
the claimed concatenation. -/
theorem get_url_link_final_segment_counterexample :
    ngStateGetUrlLink "/data/out.v1" "s3" "aind-msma-data"
        "https://neuroglancer-demo.appspot.com/" "process_output.json"
      = "https://neuroglancer-demo.appspot.com/#!s3://aind-msma-data/out/process_output.json" ∧
    ("https://neuroglancer-demo.appspot.com/#!s3://aind-msma-data/out/process_output.json" : String)
      ≠ "https://neuroglancer-demo.appspot.com/#!s3://aind-msma-data/out.v1/process_output.json" :=
  ⟨rfl, by decide⟩

/-- C9 amended: `get_url_link` returns the concatenation of the base
viewer URL, `#!`, the storage scheme, `://`, the bucket, `/`, the STEM
of the final path segment of the (prefix-stripped) output directory —
the final segment with its last dot-suffix removed, which coincides
with the full final segment whenever that segment carries no dot — `/`,
and the configured output file name. -/
theorem get_url_link_formula (output_json mount_service bucket_path base_url json_name : String)
    (h1 : strStarts json_name "/" = false)
    (h2 : pyStem (fixOutputJsonPath output_json) ≠ "")
    (h3 : pyStem (fixOutputJsonPath output_json) ≠ ".") :
    ngStateGetUrlLink output_json mount_service bucket_path base_url json_name
      = base_url ++ "#!" ++ mount_service ++ "://" ++ bucket_path ++ "/"
          ++ pyStem (fixOutputJsonPath output_json) ++ "/" ++ json_name := by
  unfold ngStateGetUrlLink pyJoin
  simp only [h1, Bool.false_eq_true, if_false, h2, h3, or_self, if_neg, not_false_iff,
    String.append_assoc]

/-- C9 amended witness: the spec example — output directory ending in
`src`, bucket `aind-msma-data`, scheme `s3` — produces exactly the
claimed link. -/
theorem get_url_link_formula_witness :
    ngStateGetUrlLink "/Users/camilo.laiton/repositories/aind-ng-link/src" "s3"
        "aind-msma-data" "https://neuroglancer-demo.appspot.com/" "process_output.json"
      = "https://neuroglancer-demo.appspot.com/#!s3://aind-msma-data/src/process_output.json" := by
  have h := get_url_link_formula "/Users/camilo.laiton/repositories/aind-ng-link/src" "s3"
    "aind-msma-data" "https://neuroglancer-demo.appspot.com/" "process_output.json"
    (by decide) (by decide) (by decide)
  rw [h]
  rfl

/-- C10: an axis name matching the spatial pattern converts
`{voxel_size: v, unit: u}` to `[v * factor(u, meters), "m"]` for a
registered length unit `u` with SI factor `f`; the time axis `t`
converts to `[v * factor(u, seconds), "s"]` for a time unit; and the
channel axis passes `[voxel_size, unit]` through unconverted. -/
theorem dimension_axis_conversion (axis u : String) (v f : ℚ) :
    (spatialAxisMatch axis = true →
      unitRegistry u = some { dim := PintDim.length, toBase := f } →
      ngStateDimensionsSetter [(axis, { voxel_size := v, unit := u })]
        = Except.ok [(axis, (v * f, "m"))]) ∧
    (unitRegistry u = some { dim := PintDim.time, toBase := f } →
      ngStateDimensionsSetter [("t", { voxel_size := v, unit := u })]
        = Except.ok [("t", (v * f, "s"))]) ∧
    ngStateDimensionsSetter [("c\x27", { voxel_size := v, unit := u })]
      = Except.ok [("c\x27", (v, u))] := by
  refine ⟨fun hsp hu => ?_, fun hu => ?_, ?_⟩
  · simp only [ngStateDimensionsSetter, hsp, if_true, unpackAxis, hu]
    rfl
  · simp only [ngStateDimensionsSetter, unpackAxis, hu]
    rfl
  · rfl

/-- C10 witness: `x` in microns converts to meters with factor
`1 / 1000000`, `t` in milliseconds converts to seconds with factor
`1 / 1000`, and the channel axis passes through. -/
theorem dimension_axis_conversion_witness :
    ngStateDimensionsSetter [("x", { voxel_size := 2, unit := "microns" })]
      = Except.ok [("x", (2 * (1 / 1000000), "m"))] ∧
    ngStateDimensionsSetter [("t", { voxel_size := 3, unit := "milliseconds" })]
      = Except.ok [("t", (3 * (1 / 1000), "s"))] ∧
    ngStateDimensionsSetter [("c\x27", { voxel_size := 1, unit := "" })]
      = Except.ok [("c\x27", (1, ""))] :=
  ⟨(dimension_axis_conversion "x" "microns" 2 (1 / 1000000)).1 (by decide) rfl,
   (dimension_axis_conversion "t" "milliseconds" 3 (1 / 1000)).2.1 rfl,
   (dimension_axis_conversion "c\x27" "" 1 0).2.2⟩

/-- Helper: on any nonempty layer list the `layers` setter never returns
a layer-state list — its first iteration always raises. -/
theorem ngStateLayersSetter_cons_raises (dims : Dims) (mount_service bucket_path : String)
    (l : LayerDesc) (rest : List LayerDesc) :
    ∀ out, ngStateLayersSetter dims mount_service bucket_path (l :: rest) ≠ Except.ok out := by
  intro out h
  simp only [ngStateLayersSetter] at h
  split at h
  · simp at h
  · split at h
    · simp at h
    · simp [ngLayerNoArgCall] at h

/-- C1: for every input description with a nonempty `layers` sequence,
constructing `NgState` raises before any layer state is produced — the
per-layer dispatch calls `NgLayer()` with none of its three required
constructor arguments (`TypeError`; the undefined `create` attribute
would raise next) — so no document containing layers is ever assembled;
in particular an image layer makes the `layers` setter itself raise
`TypeError`. -/
theorem ngstate_nonempty_layers_always_raise
    (input_config : InputConfig)
    (mount_service bucket_path output_json base_url json_name : String)
    (h : input_config.layers ≠ []) :
    (∀ doc, ngStateInitialize input_config mount_service bucket_path output_json
        base_url json_name ≠ Except.ok doc) ∧
    (∀ dims l rest, input_config.layers = l :: rest → l.type = some "image" →
      ngStateLayersSetter dims mount_service bucket_path input_config.layers
        = Except.error PyError.typeError) := by
  constructor
  · intro doc hdoc
    unfold ngStateInitialize at hdoc
    cases hdim : ngStateDimensionsSetter input_config.dimensions with
    | error e => rw [hdim] at hdoc; simp [Bind.bind, Except.bind] at hdoc
    | ok dims =>
      rw [hdim] at hdoc
      simp only [Bind.bind, Except.bind] at hdoc
      cases hlayers : input_config.layers with
      | nil => exact h hlayers
      | cons l rest =>
        rw [hlayers] at hdoc
        cases hset : ngStateLayersSetter dims mount_service bucket_path (l :: rest) with
        | error e => rw [hset] at hdoc; simp at hdoc
        | ok out =>
          exact ngStateLayersSetter_cons_raises dims mount_service bucket_path l rest out hset
  · intro dims l rest hcons himg
    rw [hcons]
    simp [ngStateLayersSetter, himg, ngLayerNoArgCall]

/-- A one-image-layer input used to witness the dispatch failure. -/
def layerW1 : LayerDesc :=
  { type := some "image", source := some (RawSource.path "w.zarr"), channel := none,
    name := none, shader := none, shaderControls := none, visible := none,
    opacity := none, blend := none, annotations := none, limits := none }

/-- Input description holding the single image layer `layerW1`. -/
def inputW1 : InputConfig :=
  { dimensions := [], layers := [layerW1], showAxisLines := none, showScaleBar := none }

/-- An arbitrary document value, needed only to instantiate the
universally quantified conclusion of the dispatch theorem. -/
def docW1 : NgStateDoc :=
  { ng_link := "", dimensions := [], layers := [], showAxisLines := true, showScaleBar := true }

/-- C1 witness: on the concrete one-image-layer input, initialization
produces no document and the `layers` setter raises `TypeError`. -/
theorem ngstate_nonempty_layers_always_raise_witness :
    ngStateInitialize inputW1 "s3" "bucket" "/out/src" "url/" "out.json"
      ≠ Except.ok docW1 ∧
    ngStateLayersSetter [] "s3" "bucket" inputW1.layers
      = Except.error PyError.typeError := by
  have h := ngstate_nonempty_layers_always_raise inputW1 "s3" "bucket" "/out/src" "url/"
    "out.json" (List.cons_ne_nil layerW1 [])
  exact ⟨h.1 docW1, h.2 [] layerW1 [] rfl rfl⟩

/-- C2: in the assembled document the display flags `showAxisLines` and
`showScaleBar` are both `true` when the corresponding keys are absent
from the input description, and each equals the input value when its
key is present (the flag setters apply `bool(...)`, the identity on the
boolean-typed inputs modelled here). -/
theorem ngstate_show_flags
    (input_config : InputConfig)
    (mount_service bucket_path output_json base_url json_name : String)
    (st : NgStateDoc)
    (h : ngStateInitialize input_config mount_service bucket_path output_json
      base_url json_name = Except.ok st) :
    st.showAxisLines = input_config.showAxisLines.getD true ∧
    st.showScaleBar = input_config.showScaleBar.getD true := by
  unfold ngStateInitialize at h
  cases hdim : ngStateDimensionsSetter input_config.dimensions with
  | error e => rw [hdim] at h; simp [Bind.bind, Except.bind] at h
  | ok dims =>
    rw [hdim] at h
    simp only [Bind.bind, Except.bind] at h
    cases hset : ngStateLayersSetter dims mount_service bucket_path input_config.layers with
    | error e => rw [hset] at h; simp at h
    | ok ls =>
      rw [hset] at h
      simp only [Except.ok.injEq] at h
      cases hA : input_config.showAxisLines <;> cases hB : input_config.showScaleBar <;>
        rw [hA, hB] at h <;> subst h <;> simp [hA, hB]

/-- Input description with an explicit `showAxisLines: false` and no
`showScaleBar` key. -/
def inputW2 : InputConfig :=
  { dimensions := [("x", { voxel_size := 2, unit := "microns" })], layers := [],
    showAxisLines := some false, showScaleBar := none }

/-- The document assembled from `inputW2`. -/
def docW2 : NgStateDoc :=
  { ng_link := ngStateGetUrlLink "/o/src" "s3" "b" "u/" "f.json"
    dimensions := [("x", (2 * (1 / 1000000), "m"))]
    layers := []
    showAxisLines := false
    showScaleBar := true }

/-- C2 witness: the concrete input with `showAxisLines: false` and no
`showScaleBar` assembles a document whose flags are `false` and `true`
respectively. -/
theorem ngstate_show_flags_witness :
    ngStateInitialize inputW2 "s3" "b" "/o/src" "u/" "f.json" = Except.ok docW2 ∧
    docW2.showAxisLines = false ∧ docW2.showScaleBar = true := by
  have hinit : ngStateInitialize inputW2 "s3" "b" "/o/src" "u/" "f.json"
      = Except.ok docW2 := rfl
  have h := ngstate_show_flags inputW2 "s3" "b" "/o/src" "u/" "f.json" docW2 hinit
  exact ⟨hinit, h.1, h.2⟩

/-- Helper: after the pre-name default pass on a freshly built layer
state, `localDimensions` always holds the channel entry for the input
channel defaulted to `0` — the explicit channel was stored incremented
by the setter, and an absent channel was defaulted through the same
setter before the name branch runs. -/
theorem ngLayerDefaultsPre_localDims (cfg : LayerDesc) (f : FixedSource) :
    (ngLayerDefaultsPre (ngLayerUpdateState cfg f) cfg).localDimensions
      = some (imageChannelEntry (cfg.channel.getD 0)) := by
  by_cases h1 : cfg.shaderControls.isNone <;> by_cases h2 : cfg.visible.isNone <;>
    cases hch : cfg.channel <;>
    simp [ngLayerDefaultsPre, ngLayerUpdateState, h1, h2, hch]

/-- C3 counterexample: the single-path layer with source
`image_path.zarr`, channel `0` and no explicit name produces the name
`image_path_1` — the suffix is the 1-based stored channel, not the
0-based input channel `0` the claim states — and a channel-less layer
also produces `image_path_1` (the channel default runs before name
derivation), not the claimed empty suffix. -/
theorem ngLayer_default_name_counterexample :
    (ngLayerBuild
        { type := some "image", source := some (RawSource.path "image_path.zarr"),
          channel := some 0, name := none,
          shader := some { color := "green", emitter := "RGB", vec := "vec3" },
          shaderControls := some { lo := 0, hi := 500 }, visible := none,
          opacity := none, blend := none, annotations := none, limits := none }
        "s3" "aind-msma-data" "image" []).map (fun s => s.name)
      = Except.ok (some "image_path_1") ∧
    (ngLayerBuild
        { type := some "image", source := some (RawSource.path "image_path.zarr"),
          channel := none, name := none,
          shader := some { color := "green", emitter := "RGB", vec := "vec3" },
          shaderControls := some { lo := 0, hi := 500 }, visible := none,
          opacity := none, blend := none, annotations := none, limits := none }
        "s3" "aind-msma-data" "image" []).map (fun s => s.name)
      = Except.ok (some "image_path_1") ∧
    some ("image_path_1" : String) ≠ some "image_path_0" ∧
    some ("image_path_1" : String) ≠ some "image_path_" :=
  ⟨rfl, rfl, by decide, by decide⟩

/-- C3 amended: for a layer description with no explicit `name` whose
build succeeds, the produced name is the stem of the resolved source —
the single resolved path, or the resolved url of the first tile for
multi-tile sources — suffixed with the STORED channel value, which is
the 0-based input channel (defaulted to `0` when absent) incremented by
one; the empty-suffix fallback is unreachable in the build flow because
the channel default is applied before name derivation. -/
theorem ngLayer_default_name_incremented (cfg : LayerDesc)
    (mount_service bucket_path image_type : String) (dims : Dims) (st : NgLayerState)
    (raw : RawSource) (fixedSrc : FixedSource) (nm : String)
    (hname : cfg.name = none)
    (hsrc : cfg.source = some raw)
    (hfix : fixImageSource mount_service bucket_path (helper_reverse_dictionary dims) raw
      = Except.ok fixedSrc)
    (hderive : deriveDefaultName fixedSrc (toString (cfg.channel.getD 0 + 1))
      = Except.ok nm)
    (hb : ngLayerBuild cfg mount_service bucket_path image_type dims = Except.ok st) :
    st.name = some nm := by
  simp only [ngLayerBuild, hsrc, hfix] at hb
  simp only [ngLayerSetDefaultValues, hname, Option.isNone_none] at hb
  rw [ngLayerDefaultsPre_localDims cfg fixedSrc] at hb
  simp only [imageChannelEntry] at hb
  rw [hderive] at hb
  simp only [if_true, Except.ok.injEq] at hb
  subst hb
  by_cases ht : cfg.type.isNone <;> simp [ht]

/-- The layer description used to witness the amended name derivation. -/
def layerC3 : LayerDesc :=
  { type := none, source := some (RawSource.path "a/b.zarr"), channel := some 4,
    name := none, shader := none, shaderControls := none, visible := none,
    opacity := none, blend := none, annotations := none, limits := none }

/-- The layer state built from `layerC3`. -/
def stC3 : NgLayerState :=
  { type := some "image", name := some "b_5", blend := none, visible := some true,
    shader := none, shaderControls := some { lo := 0, hi := 200 }, opacity := none,
    localDimensions := some ("c\x27", 5, ""),
    source := some (FixedSource.path "zarr://s3://bkt/a/b.zarr") }

/-- C3 amended witness: the layer with source `a/b.zarr` and channel `4`
builds and receives the default name `b_5` (stem `b`, stored channel
`4 + 1`). -/
theorem ngLayer_default_name_incremented_witness :
    ngLayerBuild layerC3 "s3" "bkt" "image" [] = Except.ok stC3 ∧
    stC3.name = some "b_5" :=
  ⟨rfl,
   ngLayer_default_name_incremented layerC3 "s3" "bkt" "image" [] stC3
     (RawSource.path "a/b.zarr") (FixedSource.path "zarr://s3://bkt/a/b.zarr") "b_5"
     rfl rfl rfl rfl rfl⟩

/-- The channel-0 green image layer of the repository example input. -/
def exampleLayerGreen : LayerDesc :=
  { type := some "image", source := some (RawSource.path "image_path.zarr"),
    channel := some 0, name := none,
    shader := some { color := "green", emitter := "RGB", vec := "vec3" },
    shaderControls := some { lo := 0, hi := 500 }, visible := none,
    opacity := none, blend := none, annotations := none, limits := none }

/-- The channel-1 red image layer of the repository example input. -/
def exampleLayerRed : LayerDesc :=
  { type := some "image", source := some (RawSource.path "image_path.zarr"),
    channel := some 1, name := none,
    shader := some { color := "red", emitter := "RGB", vec := "vec3" },
    shaderControls := some { lo := 0, hi := 500 }, visible := none,
    opacity := none, blend := none, annotations := none, limits := none }

/-- The repository example input: z/y/x in microns, t in seconds, and
the two image layers with channels `0` and `1`. -/
def exampleInput : InputConfig :=
  { dimensions := [("z", { voxel_size := 2, unit := "microns" }),
                   ("y", { voxel_size := 9 / 5, unit := "microns" }),
                   ("x", { voxel_size := 9 / 5, unit := "microns" }),
                   ("t", { voxel_size := 1 / 1000, unit := "seconds" })]
    layers := [exampleLayerGreen, exampleLayerRed]
    showAxisLines := none
    showScaleBar := none }

/-- C8 evaluation at the failing input: the layer-level channel setter
does store the input channel incremented by one — building the two
image layers directly yields `localDimensions` channel values `1` and
`2` under the channel axis key — but assembling the document through
`NgState` dies with `TypeError` at the `NgLayer()` zero-argument
dispatch, so the claimed two-layer document is never produced. -/
theorem channel_increment_and_broken_dispatch :
    (ngLayerBuild exampleLayerGreen "s3" "aind-msma-data" "image" []).map
        (fun s => s.localDimensions) = Except.ok (some ("c\x27", 1, "")) ∧
    (ngLayerBuild exampleLayerRed "s3" "aind-msma-data" "image" []).map
        (fun s => s.localDimensions) = Except.ok (some ("c\x27", 2, "")) ∧
    ngStateLayersSetter [] "s3" "aind-msma-data" [exampleLayerGreen, exampleLayerRed]
      = Except.error PyError.typeError ∧
    ngStateInitialize exampleInput "s3" "aind-msma-data"
        "/Users/camilo.laiton/repositories/aind-ng-link/src"
        "https://neuroglancer-demo.appspot.com/" "process_output.json"
      = Except.error PyError.typeError :=
  ⟨rfl, rfl, rfl, rfl⟩
